import Mathlib

/-!
Verification of the car/physics loop and AI-gateway wrappers of the
portfolio application.  The numeric domain of the source (IEEE doubles) is
modelled by `ℚ`; square roots produced by `Vector3.length`/`distanceTo`
(`Math.sqrt`) are either avoided by comparing squared distances against the
squared radius, or passed as explicit parameters characterised by their
defining property.
-/

/-- 3D vector, mirroring `THREE.Vector3` fields used by the physics code. -/
structure Vec3 where
  x : ℚ
  y : ℚ
  z : ℚ
deriving DecidableEq, Repr

/-- Squared Euclidean distance between two vectors.
`Vector3.distanceTo` in the source is the square root of this; every
comparison `distanceTo v < r` (with `r ≥ 0`) is embedded as
`vecDistSq v < r ^ 2`. -/
def vecDistSq (a b : Vec3) : ℚ :=
  (a.x - b.x) ^ 2 + (a.y - b.y) ^ 2 + (a.z - b.z) ^ 2

/-- Key states sampled by `useCarController` (`src/components/World.tsx`,
`keys.current`).  `up` stands for `ArrowUp || KeyW`, `down` for
`ArrowDown || KeyS`, `left` for `ArrowLeft || KeyA`, `right` for
`ArrowRight || KeyD`, `shift` for `ShiftLeft || ShiftRight`, `keyR` for
`KeyR`. -/
structure Keys where
  up : Bool
  down : Bool
  left : Bool
  right : Bool
  shift : Bool
  keyR : Bool
deriving DecidableEq, Repr

/-- Vehicle state of `useCarController`: `position` (x, y, z), `velocity`
(x, y, z), the `rotation` React state (heading, radians) and the
`isBraking` ref. -/
structure CarState where
  posX : ℚ
  posY : ℚ
  posZ : ℚ
  velX : ℚ
  velY : ℚ
  velZ : ℚ
  rotation : ℚ
  isBraking : Bool
deriving DecidableEq, Repr

/-- `Math.sign`. -/
def qsign (x : ℚ) : ℚ :=
  if 0 < x then 1 else if x < 0 then -1 else 0

/-- Bounds check of `useCarController` for one planar axis
(`World.tsx` lines 181-189): when the integrated coordinate exceeds the
bound 95 in magnitude, clamp it to `Math.sign(p) * 95` and multiply the
velocity component by `-0.5` (the "bounce"). -/
def applyBoundsAxis (p v : ℚ) : ℚ × ℚ :=
  if 95 < |p| then (qsign p * 95, v * (-(1 / 2))) else (p, v)

/-- One `useFrame` tick of `useCarController` (`World.tsx` lines 116-199).
`dx` and `dz` stand for `Math.sin(rotation)` and `Math.cos(rotation)` of the
pre-frame heading; they enter only through the throttle impulse.  The audio
call at the end mutates no vehicle state and is omitted.  Note that on reset
(`KeyR`) the handler returns early, leaving `isBraking` untouched. -/
def carStep (k : Keys) (δ dx dz : ℚ) (s : CarState) : CarState :=
  if k.keyR then
    { s with velX := 0, velY := 0, velZ := 0,
             posX := 0, posY := 1 / 2, posZ := 0, rotation := 0 }
  else
    let throttle : ℚ := (if k.up then 1 else 0) - (if k.down then 1 else 0)
    let accAmount : ℚ := if 0 < throttle then (if k.shift then 80 else 40) else 30
    let rot2 := s.rotation + (if k.left then 3 * δ else 0)
                - (if k.right then 3 * δ else 0)
    let vx1 := if throttle ≠ 0 then s.velX - dx * throttle * accAmount * δ else s.velX
    let vz1 := if throttle ≠ 0 then s.velZ - dz * throttle * accAmount * δ else s.velZ
    let nx := s.posX + vx1 * δ
    let ny := s.posY + s.velY * δ
    let nz := s.posZ + vz1 * δ
    let bx := applyBoundsAxis nx vx1
    let bz := applyBoundsAxis nz vz1
    { posX := bx.1, posY := ny, posZ := bz.1,
      velX := bx.2 * (97 / 100), velY := s.velY * (97 / 100),
      velZ := bz.2 * (97 / 100),
      rotation := rot2, isBraking := decide (throttle < 0) }

/-- Squared speed of the vehicle (`velocity.length()` squared). -/
def speedSq (s : CarState) : ℚ :=
  s.velX ^ 2 + s.velY ^ 2 + s.velZ ^ 2

/-- No movement, steer or reset key held (boost modifier unconstrained). -/
def CoastKeys (k : Keys) : Prop :=
  k.up = false ∧ k.down = false ∧ k.left = false ∧ k.right = false ∧ k.keyR = false

/-- Run `carStep` over a list of frames, each a triple
(delta, sin of heading, cos of heading). -/
def runCar (k : Keys) : CarState → List (ℚ × ℚ × ℚ) → CarState
  | s, [] => s
  | s, f :: fs => runCar k (carStep k f.1 f.2.1 f.2.2 s) fs

/-- Every integrated position along the run stays strictly inside the
planar bound 95, so no bounce fires. -/
def NoBounce (k : Keys) : CarState → List (ℚ × ℚ × ℚ) → Prop
  | _, [] => True
  | s, f :: fs =>
      |s.posX + s.velX * f.1| < 95 ∧ |s.posZ + s.velZ * f.1| < 95 ∧
      NoBounce k (carStep k f.1 f.2.1 f.2.2 s) fs

/-- Gravity/resting part of one `CrateSystem` frame for a single crate
(`World.tsx` lines 494-509), i.e. the frame with no car collision: while
`position.y > 0.5` gravity `velocity.y -= 20 * delta` is applied; otherwise
`velocity.y = 0`, `position.y = 0.5` and the whole velocity is scaled by
`0.90` (ground friction).  Then `position += velocity * delta`. -/
def crateFreeStep (δ : ℚ) (p v : Vec3) : Vec3 × Vec3 :=
  if 1 / 2 < p.y then
    let v1 : Vec3 := ⟨v.x, v.y - 20 * δ, v.z⟩
    (⟨p.x + v1.x * δ, p.y + v1.y * δ, p.z + v1.z * δ⟩, v1)
  else
    let v1 : Vec3 := ⟨v.x * (9 / 10), 0, v.z * (9 / 10)⟩
    (⟨p.x + v1.x * δ, 1 / 2 + v1.y * δ, p.z + v1.z * δ⟩, v1)

/-- Uncurried form of `crateFreeStep` for iteration over frames. -/
def crateFreePair (δ : ℚ) (pv : Vec3 × Vec3) : Vec3 × Vec3 :=
  crateFreeStep δ pv.1 pv.2

/-- Squared distance from the vehicle at (cx, cy, cz) to a point
(zx, zy, zz); the squared form of `carPos.distanceTo(zonePos)`. -/
def carDistSq (cx cy cz zx zy zz : ℚ) : ℚ :=
  (cx - zx) ^ 2 + (cy - zy) ^ 2 + (cz - zz) ^ 2

/-- A trigger zone of `SceneContent`: position plus the panel identifier it
opens (the `section` field of the `triggers` array, abstracted to `ℕ`). -/
structure Zone where
  x : ℚ
  y : ℚ
  z : ℚ
  tag : ℕ
deriving DecidableEq, Repr

/-- Enter-key handler of `SceneContent` (`World.tsx` lines 657-665):
`triggers.find(t => t.pos.distanceTo(carApi.position.current) < 6)`,
i.e. the first zone in array order whose distance to the vehicle is below 6
(squared distance below 36); `none` when no zone qualifies.  The emitted
panel-open event carries the returned zone's identifier. -/
def findTrigger (cx cy cz : ℚ) : List Zone → Option Zone
  | [] => none
  | t :: ts =>
      if carDistSq cx cy cz t.x t.y t.z < 36 then some t
      else findTrigger cx cy cz ts

/-- Active flag of `SectionTrigger` (`World.tsx` lines 585-588):
`carPos.current.distanceTo(new Vector3(...position)) < 6`, embedded as the
squared distance compared against 36. -/
def triggerActive (cx cy cz zx zy zz : ℚ) : Bool :=
  decide (carDistSq cx cy cz zx zy zz < 36)

/-- Car-collision response of `CrateSystem` for one crate
(`World.tsx` lines 511-536).  `dist` and `speed` are the double-precision
square roots computed by `crate.position.distanceTo(carPos)` and
`carVel.length()`, passed as parameters (so `dist ^ 2` is the squared
distance between the centers and `speed ^ 2` the squared car speed; the
car's velocity enters the response only through `speed`).

The embedding preserves the in-place mutation semantics of `THREE.Vector3`:
`const forceVec = direction.multiplyScalar(impactForce)` scales `direction`
itself and aliases it, and `forceVec.y = Math.min(impactForce * 0.5, 10)`
therefore also overwrites `direction.y`; the subsequent
`direction.clone().multiplyScalar(minDist - dist)` hence scales the
force-scaled, y-overwritten vector, not the unit normal. -/
def resolveCrateCar (cratePos crateVel carPos : Vec3)
    (dist speed : ℚ) : Vec3 × Vec3 :=
  let minDist : ℚ := 2 + 8 / 10
  if dist < minDist then
    let n : Vec3 := ⟨(cratePos.x - carPos.x) / dist, (cratePos.y - carPos.y) / dist,
                     (cratePos.z - carPos.z) / dist⟩
    let impactForce := speed * (3 / 2)
    let fv : Vec3 := ⟨n.x * impactForce, min (impactForce * (1 / 2)) 10,
                      n.z * impactForce⟩
    let vel2 : Vec3 := ⟨crateVel.x + fv.x, crateVel.y + fv.y, crateVel.z + fv.z⟩
    let push : Vec3 := ⟨fv.x * (minDist - dist), fv.y * (minDist - dist),
                        fv.z * (minDist - dist)⟩
    (⟨cratePos.x + push.x, cratePos.y + push.y, cratePos.z + push.z⟩, vel2)
  else (cratePos, crateVel)

/-- Wheel handler of `CameraHandler` (`World.tsx` lines 738-742): while an
overlay panel is open the event is ignored; otherwise the zoom distance
becomes `THREE.MathUtils.clamp(distance + deltaY * 0.02, 5, 40)`, i.e.
`max 5 (min (distance + deltaY * 0.02) 40)`. -/
def onWheel (isOverlayOpen : Bool) (deltaY d : ℚ) : ℚ :=
  if isOverlayOpen then d else max 5 (min (d + deltaY * (2 / 100)) 40)

/-- Result of one `ai.operations.getVideosOperation` poll (or of the initial
`generateVideos` call) in `generateVideo` (`src/services/geminiService.ts`):
the `done` flag and the flattened optional
`response?.generatedVideos?.[0]?.video?.uri`. -/
structure VideosOperation where
  done : Bool
  videoUri : Option String
deriving DecidableEq, Repr

/-- Polling loop of `generateVideo` (lines 53-56): repeatedly replace the
operation by the next poll result until `done` holds.  The successive poll
results are supplied as a list; `none` models a run in which the loop never
observes a completed operation within the supplied results (the source
would keep polling forever). -/
def pollOps (op : VideosOperation) : List VideosOperation → Option VideosOperation
  | [] => if op.done then some op else none
  | o :: os => if op.done then some op else pollOps o os

/-- `generateVideo` after the initial request (lines 52-66): poll until
done, then fail with "No video URI returned" when the final operation
carries no video URI, fetch the URI otherwise, fail with "Failed to
download video" when the fetch is not ok, and return the object URL of the
downloaded blob otherwise.  `fetchVideo` abstracts the network fetch plus
`URL.createObjectURL`: `none` for a non-ok response, `some handle` for a
successful download. -/
def generateVideoModel (op0 : VideosOperation) (rest : List VideosOperation)
    (fetchVideo : String → Option String) : Option (Except String String) :=
  match pollOps op0 rest with
  | none => none
  | some fin =>
    match fin.videoUri with
    | none => some (Except.error "No video URI returned")
    | some uri =>
      match fetchVideo uri with
      | none => some (Except.error "Failed to download video")
      | some handle => some (Except.ok handle)

/-- `part.inlineData` of a generate-content response part: base64 payload
and reported mime type. -/
structure InlinePayload where
  data : String
  mimeType : String
deriving DecidableEq, Repr

/-- One part of a generate-content candidate. -/
structure GenPart where
  inlineData : Option InlinePayload
  text : Option String
deriving DecidableEq, Repr

/-- Extraction loop of `editImage` (`geminiService.ts` lines 99-106): scan
the parts in order, return a PNG data URL built from the first part
carrying inline data (the reported mime type is ignored), and throw
"No image generated in response" when no part carries inline data. -/
def extractImage : List GenPart → Except String String
  | [] => Except.error "No image generated in response"
  | p :: ps =>
    match p.inlineData with
    | some payload => Except.ok ("data:image/png;base64," ++ payload.data)
    | none => extractImage ps

/-- `editImage` response handling: the scanned parts are
`response.candidates?.[0]?.content?.parts || []`, i.e. the parts of the
first candidate, or the empty list when there is no candidate. -/
def editImageModel (candidates : List (List GenPart)) : Except String String :=
  extractImage (candidates.headD [])

-- ------------------------------------------------------------------
-- Theorems
-- ------------------------------------------------------------------

theorem absBoundsAxisFst (p v : ℚ) : |(applyBoundsAxis p v).1| ≤ 95 := by
  unfold applyBoundsAxis
  by_cases h : 95 < |p|
  · rw [if_pos h]
    have hp : qsign p = 1 ∨ qsign p = -1 := by
      unfold qsign
      rcases lt_trichotomy 0 p with h1 | h1 | h1
      · rw [if_pos h1]
        exact Or.inl rfl
      · exfalso
        rw [← h1] at h
        norm_num at h
      · rw [if_neg (by linarith), if_pos h1]
        exact Or.inr rfl
    rcases hp with hp | hp <;> rw [hp] <;> norm_num
  · rw [if_neg h]
    simpa using not_lt.mp h

/-- C2: after every `useCarController` frame the vehicle position satisfies
`|x| ≤ 95` and `|z| ≤ 95`; and whenever the integrated coordinate on a
planar axis exceeds the bound in magnitude, the bounds check used by the
frame clamps the coordinate to `sign * 95` and replaces the velocity
component by its negated half. -/
theorem c2_bounds (k : Keys) (δ dx dz : ℚ) (s : CarState) :
    |(carStep k δ dx dz s).posX| ≤ 95 ∧ |(carStep k δ dx dz s).posZ| ≤ 95 ∧
    ∀ p v : ℚ, 95 < |p| → applyBoundsAxis p v = (qsign p * 95, -(v / 2)) := by
  refine ⟨?_, ?_, ?_⟩
  · by_cases hk : k.keyR = true
    · simp [carStep, hk]
    · unfold carStep
      rw [if_neg hk]
      exact absBoundsAxisFst _ _
  · by_cases hk : k.keyR = true
    · simp [carStep, hk]
    · unfold carStep
      rw [if_neg hk]
      exact absBoundsAxisFst _ _
  · intro p v hp
    unfold applyBoundsAxis
    rw [if_pos hp]
    ring_nf

/-- C2 witness: the bounce at a concrete out-of-bound coordinate. -/
theorem c2_bounds_witness :
    applyBoundsAxis 100 4 = (qsign 100 * 95, -(4 / 2)) :=
  (c2_bounds ⟨false, false, false, false, false, false⟩ (1 / 60) 0 1
      ⟨0, 1 / 2, 0, 0, 0, 0, 0, false⟩).2.2 100 4 (by norm_num)

/-- C9: whenever the reset key is held, the frame sets velocity to zero,
position to (0, 0.5, 0) and heading to zero, regardless of the other keys,
the frame delta and the prior state, and performs none of the remaining
per-frame processing (in particular `isBraking` is left untouched and no
friction is applied to the zeroed velocity). -/
theorem c9_reset (k : Keys) (δ dx dz : ℚ) (s : CarState) (h : k.keyR = true) :
    (carStep k δ dx dz s).velX = 0 ∧ (carStep k δ dx dz s).velY = 0 ∧
    (carStep k δ dx dz s).velZ = 0 ∧ (carStep k δ dx dz s).posX = 0 ∧
    (carStep k δ dx dz s).posY = 1 / 2 ∧ (carStep k δ dx dz s).posZ = 0 ∧
    (carStep k δ dx dz s).rotation = 0 ∧
    (carStep k δ dx dz s).isBraking = s.isBraking := by
  unfold carStep
  rw [if_pos h]
  exact ⟨rfl, rfl, rfl, rfl, rfl, rfl, rfl, rfl⟩

/-- C9 witness: reset with every other key held as well. -/
theorem c9_reset_witness :
    (carStep ⟨true, true, true, true, true, true⟩ (1 / 60) 0 1
        ⟨50, 1 / 2, -3, 7, 0, -2, 5, true⟩).velX = 0 ∧
    (carStep ⟨true, true, true, true, true, true⟩ (1 / 60) 0 1
        ⟨50, 1 / 2, -3, 7, 0, -2, 5, true⟩).posX = 0 :=
  ⟨(c9_reset ⟨true, true, true, true, true, true⟩ (1 / 60) 0 1
      ⟨50, 1 / 2, -3, 7, 0, -2, 5, true⟩ rfl).1,
   (c9_reset ⟨true, true, true, true, true, true⟩ (1 / 60) 0 1
      ⟨50, 1 / 2, -3, 7, 0, -2, 5, true⟩ rfl).2.2.2.1⟩

theorem crateRestStep (δ : ℚ) (pv : Vec3 × Vec3) (h : pv.1.y ≤ 1 / 2) :
    (crateFreePair δ pv).1.y = 1 / 2 ∧ (crateFreePair δ pv).2.y = 0 := by
  unfold crateFreePair crateFreeStep
  rw [if_neg (not_lt.mpr h)]
  constructor
  · show (1 : ℚ) / 2 + 0 * δ = 1 / 2
    ring
  · rfl

theorem crateRestFixed (δ : ℚ) : ∀ (m : ℕ) (pv : Vec3 × Vec3),
    pv.1.y = 1 / 2 → pv.2.y = 0 →
    ((crateFreePair δ)^[m] pv).1.y = 1 / 2 ∧ ((crateFreePair δ)^[m] pv).2.y = 0 := by
  intro m
  induction m with
  | zero =>
    intro pv h1 h2
    exact ⟨h1, h2⟩
  | succ n ih =>
    intro pv h1 h2
    rw [Function.iterate_succ_apply]
    exact ih _ (crateRestStep δ pv (le_of_eq h1)).1 (crateRestStep δ pv (le_of_eq h1)).2

/-- C1 counterexample: a crate still above resting height (y = 0.6) falling
at 10 units/s ends the frame (delta = 1/60) strictly below the resting
height 0.5, refuting "the crate's vertical position never goes below its
resting height". -/
theorem c1_counterexample :
    (1 / 2 : ℚ) < ((⟨0, 3 / 5, 0⟩ : Vec3), (⟨0, -10, 0⟩ : Vec3)).1.y ∧
    (crateFreePair (1 / 60) (⟨0, 3 / 5, 0⟩, ⟨0, -10, 0⟩)).1.y < 1 / 2 := by
  constructor
  · norm_num
  · simp only [crateFreePair, crateFreeStep]
    norm_num

/-- C1 amended: while strictly above resting height the constant downward
acceleration 20 is applied and the position integrates the updated velocity,
which can carry the position below 0.5 for one frame; any frame that starts
at or below resting height ends with the position snapped to exactly 0.5 and
vertical velocity exactly zero, and every later collision-free frame keeps
it there. -/
theorem c1_amended (δ : ℚ) (pv : Vec3 × Vec3) :
    (1 / 2 < pv.1.y →
      (crateFreePair δ pv).2.y = pv.2.y - 20 * δ ∧
      (crateFreePair δ pv).1.y = pv.1.y + (pv.2.y - 20 * δ) * δ) ∧
    (pv.1.y ≤ 1 / 2 → ∀ n : ℕ, 1 ≤ n →
      ((crateFreePair δ)^[n] pv).1.y = 1 / 2 ∧
      ((crateFreePair δ)^[n] pv).2.y = 0) := by
  constructor
  · intro h
    unfold crateFreePair crateFreeStep
    rw [if_pos h]
    exact ⟨rfl, rfl⟩
  · intro h n hn
    cases n with
    | zero => omega
    | succ m =>
      rw [Function.iterate_succ_apply]
      exact crateRestFixed δ m _ (crateRestStep δ pv h).1 (crateRestStep δ pv h).2

/-- C1 witness: a crate starting at height 0.4 sits at exactly 0.5 with zero
vertical velocity after two frames. -/
theorem c1_amended_witness :
    ((crateFreePair (1 / 60))^[2] (⟨0, 2 / 5, 0⟩, ⟨1, 5, 1⟩)).1.y = 1 / 2 ∧
    ((crateFreePair (1 / 60))^[2] (⟨0, 2 / 5, 0⟩, ⟨1, 5, 1⟩)).2.y = 0 :=
  (c1_amended (1 / 60) (⟨0, 2 / 5, 0⟩, ⟨1, 5, 1⟩)).2 (by norm_num) 2 (by norm_num)

theorem coastStep (k : Keys) (δ dx dz : ℚ) (s : CarState) (hk : CoastKeys k)
    (h1 : |s.posX + s.velX * δ| < 95) (h2 : |s.posZ + s.velZ * δ| < 95) :
    carStep k δ dx dz s =
      ⟨s.posX + s.velX * δ, s.posY + s.velY * δ, s.posZ + s.velZ * δ,
       s.velX * (97 / 100), s.velY * (97 / 100), s.velZ * (97 / 100),
       s.rotation, false⟩ := by
  obtain ⟨hu, hd, hl, hr, hR⟩ := hk
  have hn1 : ¬ (95 : ℚ) < |s.posX + s.velX * δ| := not_lt.mpr h1.le
  have hn2 : ¬ (95 : ℚ) < |s.posZ + s.velZ * δ| := not_lt.mpr h2.le
  unfold carStep
  rw [if_neg (by simp [hR])]
  simp [hu, hd, hl, hr, applyBoundsAxis, hn1, hn2]

theorem c5_helper (k : Keys) (hk : CoastKeys k) :
    ∀ (fs : List (ℚ × ℚ × ℚ)) (s : CarState), NoBounce k s fs →
      (runCar k s fs).velX = (97 / 100) ^ fs.length * s.velX ∧
      (runCar k s fs).velY = (97 / 100) ^ fs.length * s.velY ∧
      (runCar k s fs).velZ = (97 / 100) ^ fs.length * s.velZ := by
  intro fs
  induction fs with
  | nil =>
    intro s _
    simp [runCar]
  | cons f rest ih =>
    intro s hb
    simp only [NoBounce] at hb
    obtain ⟨h1, h2, hb2⟩ := hb
    have hs2 := coastStep k f.1 f.2.1 f.2.2 s hk h1 h2
    have ih2 := ih (carStep k f.1 f.2.1 f.2.2 s) hb2
    rw [hs2] at ih2
    rw [runCar, hs2]
    refine ⟨?_, ?_, ?_⟩
    · rw [ih2.1]
      simp only [List.length_cons, pow_succ]
      ring
    · rw [ih2.2.1]
      simp only [List.length_cons, pow_succ]
      ring
    · rw [ih2.2.2]
      simp only [List.length_cons, pow_succ]
      ring

/-- C5: with no movement, steer or reset key held and every integrated
position staying strictly inside the planar bound (so no bounce fires),
each velocity component after N frames is exactly `0.97 ^ N` times its
initial value, hence the squared speed is `(0.97 ^ N) ^ 2` times the initial
squared speed: geometric decay of speed toward zero. -/
theorem c5_friction (k : Keys) (fs : List (ℚ × ℚ × ℚ)) (s : CarState)
    (hk : CoastKeys k) (hb : NoBounce k s fs) :
    (runCar k s fs).velX = (97 / 100) ^ fs.length * s.velX ∧
    (runCar k s fs).velY = (97 / 100) ^ fs.length * s.velY ∧
    (runCar k s fs).velZ = (97 / 100) ^ fs.length * s.velZ ∧
    speedSq (runCar k s fs) = ((97 / 100) ^ fs.length) ^ 2 * speedSq s := by
  obtain ⟨e1, e2, e3⟩ := c5_helper k hk fs s hb
  refine ⟨e1, e2, e3, ?_⟩
  unfold speedSq
  rw [e1, e2, e3]
  ring

/-- C5 witness: two idle frames starting at speed components (3, 0, 4). -/
theorem c5_friction_witness :
    (runCar ⟨false, false, false, false, false, false⟩
        ⟨0, 1 / 2, 0, 3, 0, 4, 0, false⟩
        [(1 / 60, 0, 1), (1 / 60, 0, 1)]).velX = (97 / 100) ^ 2 * 3 := by
  have h := c5_friction ⟨false, false, false, false, false, false⟩
      [(1 / 60, 0, 1), (1 / 60, 0, 1)]
      ⟨0, 1 / 2, 0, 3, 0, 4, 0, false⟩
      ⟨rfl, rfl, rfl, rfl, rfl⟩
      (by norm_num [NoBounce, carStep, applyBoundsAxis, abs_of_nonneg, abs_of_pos])
  simpa using h.1

/-- C3 counterexample: with the vehicle at the origin and two zones at
distances ~5.02 and ~3.04, both within the activation radius, the handler
returns the first zone in scan order even though the second is strictly
nearer, refuting "the zone whose panel-open event is emitted is the nearest
zone among all zones within the activation radius" for arbitrary
configurations. -/
theorem c3_counterexample :
    findTrigger 0 (1 / 2) 0 [⟨5, 0, 0, 1⟩, ⟨3, 0, 0, 2⟩] = some ⟨5, 0, 0, 1⟩ ∧
    carDistSq 0 (1 / 2) 0 3 0 0 < 36 ∧
    carDistSq 0 (1 / 2) 0 3 0 0 < carDistSq 0 (1 / 2) 0 5 0 0 := by
  refine ⟨?_, by norm_num [carDistSq], by norm_num [carDistSq]⟩
  simp only [findTrigger]
  norm_num [carDistSq]

/-- C3 amended: on the Enter edge the emitted zone is the first zone in
scan order whose distance to the vehicle is below the activation radius
(hence the nearest one whenever at most one zone is within the radius, as
with the shipped trigger layout, whose pairwise spacing exceeds twice the
radius); no event is emitted when no zone is within the radius. -/
theorem c3_amended (cx cy cz : ℚ) (ts : List Zone) :
    (findTrigger cx cy cz ts = none ↔
      ∀ t ∈ ts, ¬ carDistSq cx cy cz t.x t.y t.z < 36) ∧
    (∀ z, findTrigger cx cy cz ts = some z →
      carDistSq cx cy cz z.x z.y z.z < 36 ∧
      ∃ pre post, ts = pre ++ z :: post ∧
        ∀ t ∈ pre, ¬ carDistSq cx cy cz t.x t.y t.z < 36) := by
  induction ts with
  | nil =>
    constructor
    · simp [findTrigger]
    · intro z h
      simp [findTrigger] at h
  | cons t rest ih =>
    by_cases h : carDistSq cx cy cz t.x t.y t.z < 36
    · constructor
      · simp [findTrigger, h]
      · intro z hz
        simp only [findTrigger] at hz
        rw [if_pos h] at hz
        injection hz with hz2
        subst hz2
        exact ⟨h, [], rest, rfl, by simp⟩
    · constructor
      · simp only [findTrigger]
        rw [if_neg h]
        constructor
        · intro hn t2 ht2
          rcases List.mem_cons.mp ht2 with rfl | hmem
          · exact h
          · exact (ih.1.mp hn) t2 hmem
        · intro hall
          exact ih.1.mpr (fun t2 ht2 => hall t2 (List.mem_cons_of_mem _ ht2))
      · intro z hz
        simp only [findTrigger] at hz
        rw [if_neg h] at hz
        obtain ⟨hzin, pre, post, hsplit, hpre⟩ := ih.2 z hz
        refine ⟨hzin, t :: pre, post, by rw [List.cons_append, hsplit], ?_⟩
        intro t2 ht2
        rcases List.mem_cons.mp ht2 with rfl | hmem
        · exact h
        · exact hpre t2 hmem

/-- C3 witness: a single in-radius zone is found, with an empty prefix of
rejected zones. -/
theorem c3_amended_witness :
    carDistSq 0 (1 / 2) 0 5 0 0 < 36 ∧
    ∃ pre post, [(⟨5, 0, 0, 1⟩ : Zone)] = pre ++ (⟨5, 0, 0, 1⟩ : Zone) :: post ∧
      ∀ t ∈ pre, ¬ carDistSq 0 (1 / 2) 0 t.x t.y t.z < 36 :=
  (c3_amended 0 (1 / 2) 0 [⟨5, 0, 0, 1⟩]).2 ⟨5, 0, 0, 1⟩
    (by simp only [findTrigger]; norm_num [carDistSq])

/-- C4 counterexample: the vehicle at planar distance 5.99 from the zone
center (below the activation radius 6) with the vehicle at its constant
height 0.5 and the zone at height 0: the claim says the active flag is
true, but the code compares the full 3D distance
(5.99 squared plus 0.5 squared exceeds 36), so the flag is false. -/
theorem c4_counterexample :
    ((599 / 100 : ℚ) - 0) ^ 2 + ((0 : ℚ) - 0) ^ 2 < 6 ^ 2 ∧
    triggerActive (599 / 100) (1 / 2) 0 0 0 0 = false := by
  constructor
  · norm_num
  · simp only [triggerActive, decide_eq_false_iff_not]
    norm_num [carDistSq]

/-- C4 amended: the active flag is true exactly when the full 3D distance
from the vehicle to the zone center is below the shared activation radius 6
(squared distance below 36); since the vehicle rides at constant height 0.5
and zone centers sit at height 0, this is planar distance below
sqrt(35.75), not below 6.  In particular the flag is true with the vehicle
planar-coincident with the center and false at or beyond planar distance
6. -/
theorem c4_amended (cx cy cz zx zy zz : ℚ) :
    (triggerActive cx cy cz zx zy zz = true ↔ carDistSq cx cy cz zx zy zz < 36) ∧
    (cx = zx ∧ cz = zz → triggerActive cx (1 / 2) cz zx 0 zz = true) ∧
    ((6 : ℚ) ^ 2 ≤ (cx - zx) ^ 2 + (cz - zz) ^ 2 →
      triggerActive cx cy cz zx zy zz = false) := by
  refine ⟨?_, ?_, ?_⟩
  · simp [triggerActive]
  · rintro ⟨rfl, rfl⟩
    simp only [triggerActive, decide_eq_true_eq]
    norm_num [carDistSq]
  · intro h
    simp only [triggerActive, decide_eq_false_iff_not, not_lt]
    unfold carDistSq
    have hy := sq_nonneg (cy - zy)
    nlinarith

/-- C4 witness: vehicle planar-coincident with a zone center. -/
theorem c4_amended_witness :
    triggerActive 1 (1 / 2) 2 1 0 2 = true :=
  (c4_amended 1 (1 / 2) 2 1 0 2).2.1 ⟨rfl, rfl⟩

/-- C6: evaluation at the failing input.  Vehicle at rest at (0, 0.5, 0),
crate at (1, 0.5, 0): the distance 1 is below the collision threshold
2.8, so the collision branch runs, yet the response leaves the crate's
position (and velocity) unchanged — the push-out vector is the
impact-force-scaled direction (force 0 at speed 0) times the overlap — so
the post-resolution squared distance is still 1, far below the squared
threshold.  This contradicts both the claim and the code's own comment
"Push crate out of car to prevent sticking". -/
theorem c6_eval :
    (1 : ℚ) < 2 + 8 / 10 ∧
    resolveCrateCar ⟨1, 1 / 2, 0⟩ ⟨0, 0, 0⟩ ⟨0, 1 / 2, 0⟩ 1 0 =
      (⟨1, 1 / 2, 0⟩, ⟨0, 0, 0⟩) ∧
    vecDistSq ⟨1, 1 / 2, 0⟩ ⟨0, 1 / 2, 0⟩ = 1 ∧
    (1 : ℚ) < (2 + 8 / 10) ^ 2 := by
  refine ⟨by norm_num, ?_, by norm_num [vecDistSq], by norm_num⟩
  simp only [resolveCrateCar]
  norm_num [min_def, Prod.ext_iff, Vec3.mk.injEq]

theorem pollOpsDone : ∀ (rest : List VideosOperation) (op fin : VideosOperation),
    pollOps op rest = some fin → fin.done = true := by
  intro rest
  induction rest with
  | nil =>
    intro op fin h
    simp only [pollOps] at h
    by_cases hd : op.done
    · rw [if_pos hd] at h
      injection h with h2
      subst h2
      exact hd
    · rw [if_neg hd] at h
      exact absurd h (by simp)
  | cons o os ih =>
    intro op fin h
    simp only [pollOps] at h
    by_cases hd : op.done
    · rw [if_pos hd] at h
      injection h with h2
      subst h2
      exact hd
    · rw [if_neg hd] at h
      exact ih o fin h

/-- C7: when the polling loop observes a completed operation, the returned
operation is done; the call fails with "No video URI returned" exactly when
that final response carries no video URI, fails with "Failed to download
video" exactly when the URI is present but the retrieval fetch is not ok,
and otherwise returns the object-URL handle of the downloaded video. -/
theorem c7_generate (op0 : VideosOperation) (rest : List VideosOperation)
    (fetchVideo : String → Option String) (fin : VideosOperation)
    (h : pollOps op0 rest = some fin) :
    fin.done = true ∧
    (fin.videoUri = none →
      generateVideoModel op0 rest fetchVideo =
        some (Except.error "No video URI returned")) ∧
    (∀ uri, fin.videoUri = some uri → fetchVideo uri = none →
      generateVideoModel op0 rest fetchVideo =
        some (Except.error "Failed to download video")) ∧
    (∀ uri handle, fin.videoUri = some uri → fetchVideo uri = some handle →
      generateVideoModel op0 rest fetchVideo = some (Except.ok handle)) := by
  refine ⟨pollOpsDone rest op0 fin h, ?_, ?_, ?_⟩
  · intro hu
    simp only [generateVideoModel, h, hu]
  · intro uri hu hf
    simp only [generateVideoModel, h, hu, hf]
  · intro uri handle hu hf
    simp only [generateVideoModel, h, hu, hf]

/-- C7 witness: one pending poll, then a done operation with a URI and a
successful download. -/
theorem c7_generate_witness :
    generateVideoModel ⟨false, none⟩ [⟨true, some "u"⟩]
      (fun _ => some "blobhandle") = some (Except.ok "blobhandle") :=
  (c7_generate ⟨false, none⟩ [⟨true, some "u"⟩] (fun _ => some "blobhandle")
      ⟨true, some "u"⟩ rfl).2.2.2 "u" "blobhandle" rfl rfl

/-- C8: a wheel event is ignored while an overlay panel is open; otherwise
the new zoom distance is `clamp(old + 0.02 * deltaY, 5, 40)`, clamping to
the nearest bound when the sum leaves [5, 40], equal to the sum when it
stays inside, and always landing in [5, 40]; a distance already in [5, 40]
remains in [5, 40] after any event. -/
theorem c8_zoom (isOverlayOpen : Bool) (deltaY d : ℚ) :
    (isOverlayOpen = true → onWheel isOverlayOpen deltaY d = d) ∧
    (isOverlayOpen = false →
      onWheel isOverlayOpen deltaY d = max 5 (min (d + deltaY * (2 / 100)) 40) ∧
      (d + deltaY * (2 / 100) < 5 → onWheel isOverlayOpen deltaY d = 5) ∧
      (40 < d + deltaY * (2 / 100) → onWheel isOverlayOpen deltaY d = 40) ∧
      (5 ≤ d + deltaY * (2 / 100) ∧ d + deltaY * (2 / 100) ≤ 40 →
        onWheel isOverlayOpen deltaY d = d + deltaY * (2 / 100)) ∧
      5 ≤ onWheel isOverlayOpen deltaY d ∧ onWheel isOverlayOpen deltaY d ≤ 40) ∧
    (5 ≤ d ∧ d ≤ 40 →
      5 ≤ onWheel isOverlayOpen deltaY d ∧ onWheel isOverlayOpen deltaY d ≤ 40) := by
  refine ⟨?_, ?_, ?_⟩
  · intro ho
    unfold onWheel
    rw [if_pos ho]
  · intro ho
    have he : onWheel isOverlayOpen deltaY d =
        max 5 (min (d + deltaY * (2 / 100)) 40) := by
      unfold onWheel
      rw [if_neg (by simp [ho])]
    refine ⟨he, ?_, ?_, ?_, ?_, ?_⟩
    · intro hlt
      rw [he, min_eq_left (by linarith), max_eq_left (by linarith)]
    · intro hgt
      rw [he, min_eq_right (by linarith), max_eq_right (by norm_num)]
    · intro hin
      rw [he, min_eq_left hin.2, max_eq_right hin.1]
    · rw [he]
      exact le_max_left _ _
    · rw [he]
      exact max_le (by norm_num) (min_le_right _ _)
  · intro hd
    cases isOverlayOpen with
    | true =>
      have : onWheel true deltaY d = d := by
        unfold onWheel
        rw [if_pos rfl]
      rw [this]
      exact hd
    | false =>
      have he : onWheel false deltaY d =
          max 5 (min (d + deltaY * (2 / 100)) 40) := by
        unfold onWheel
        rw [if_neg (by simp)]
      rw [he]
      exact ⟨le_max_left _ _, max_le (by norm_num) (min_le_right _ _)⟩

/-- C8 witness: an overlay-closed scroll that would push the distance above
40 clamps to 40. -/
theorem c8_zoom_witness : onWheel false 2000 20 = 40 :=
  ((c8_zoom false 2000 20).2.1 rfl).2.2.1 (by norm_num)

theorem extractImageSkip : ∀ (pre : List GenPart),
    (∀ p ∈ pre, p.inlineData = none) →
    ∀ rest : List GenPart, extractImage (pre ++ rest) = extractImage rest := by
  intro pre
  induction pre with
  | nil =>
    intro _ rest
    rfl
  | cons p ps ih =>
    intro hall rest
    have hp : p.inlineData = none := hall p (List.mem_cons_self p ps)
    simp only [List.cons_append, extractImage, hp]
    exact ih (fun q hq => hall q (List.mem_cons_of_mem _ hq)) rest

/-- C10: a successful `editImage` returns the base64 payload of the first
part of the first candidate that carries inline data, prefixed with the
fixed `data:image/png;base64,` header whatever mime type the response
reports, skipping any earlier parts without inline data (e.g. text parts);
when no part of the first candidate carries inline data (including when
there is no candidate at all) it fails with "No image generated in
response". -/
theorem c10_edit :
    (∀ (pre rest : List GenPart) (d mt : String) (t : Option String)
        (cs : List (List GenPart)),
      (∀ p ∈ pre, p.inlineData = none) →
      editImageModel ((pre ++ (⟨some ⟨d, mt⟩, t⟩ : GenPart) :: rest) :: cs) =
        Except.ok ("data:image/png;base64," ++ d)) ∧
    (∀ (parts : List GenPart) (cs : List (List GenPart)),
      (∀ p ∈ parts, p.inlineData = none) →
      editImageModel (parts :: cs) =
        Except.error "No image generated in response") ∧
    editImageModel [] = Except.error "No image generated in response" := by
  refine ⟨?_, ?_, rfl⟩
  · intro pre rest d mt t cs hpre
    unfold editImageModel
    simp only [List.headD_cons]
    rw [extractImageSkip pre hpre]
    rfl
  · intro parts cs hparts
    unfold editImageModel
    simp only [List.headD_cons]
    have h2 : extractImage (parts ++ []) = extractImage [] :=
      extractImageSkip parts hparts []
    rw [List.append_nil] at h2
    rw [h2]
    rfl

/-- C10 witness: a text part precedes the inline part, whose mime type is
not PNG; the result is still a PNG data URL of its payload. -/
theorem c10_edit_witness :
    editImageModel
        [[⟨none, some "describe"⟩, ⟨some ⟨"QUJD", "image/webp"⟩, none⟩]] =
      Except.ok ("data:image/png;base64," ++ "QUJD") :=
  (c10_edit).1 [⟨none, some "describe"⟩] [] "QUJD" "image/webp" none []
    (by
      intro p hp
      simp only [List.mem_singleton] at hp
      subst hp
      rfl)
